import Mathlib

/-!
A shallow embedding, over `List Char`, of the screenplay line-classification
and analysis code in `scene_validator.py`, `speaking_time.py`,
`pacing_and_distribution.py` and `text_to_script.py`, together with theorems
settling the specification claims about that code.

Python strings are modelled as `List Char`; the Python string methods used by
the source (`strip`, `upper`, `split`, `isupper`, `startswith`, `endswith`,
`center`, `rjust`, `splitlines`) are modelled for ASCII text, which covers
every literal the source compares against.
-/

/-- Python whitespace for `str.strip` and the regex class `\s` (ASCII part). -/
def pyIsSpace (c : Char) : Bool :=
  c = ' ' || c = '\t' || c = '\n' || c = '\r' || c = '\x0b' || c = '\x0c'

/-- Remove trailing whitespace (the right half of Python `str.strip`). -/
def dropTrailing (s : List Char) : List Char :=
  (s.reverse.dropWhile pyIsSpace).reverse

/-- Python `str.strip()`: remove leading and trailing whitespace. -/
def pyStrip (s : List Char) : List Char :=
  dropTrailing (s.dropWhile pyIsSpace)

/-- Python `str.upper()` (ASCII model). -/
def pyUpper (s : List Char) : List Char :=
  s.map Char.toUpper

/-- Python `str.startswith(p)`. -/
def startsWithL (s p : List Char) : Bool :=
  s.take p.length == p

/-- Python `str.endswith(p)`. -/
def endsWithL (s p : List Char) : Bool :=
  startsWithL s.reverse p.reverse

/-- Python `str.split()` with no argument: maximal nonempty runs between
whitespace. -/
def pyWords (s : List Char) : List (List Char) :=
  (s.splitOnP pyIsSpace).filter (fun w => w ≠ [])

/-- A cased character (ASCII model of Python case predicates). -/
def isCased (c : Char) : Bool := c.isAlpha

/-- Python `str.isupper()`: at least one cased character and every cased
character uppercase. -/
def pyIsUpper (s : List Char) : Bool :=
  s.any isCased && s.all (fun c => !isCased c || c.isUpper)

def litINT : List Char := "INT.".data

def litEXT : List Char := "EXT.".data

def litTO : List Char := "TO:".data

def litOUT : List Char := "OUT:".data

def litIN : List Char := "IN:".data

def UNKNOWN : List Char := "UNKNOWN".data

/-- `scene_validator.is_scene_heading`:
`line.strip().upper().startswith(('INT.', 'EXT.'))`. -/
def is_scene_heading (line : List Char) : Bool :=
  startsWithL (pyUpper (pyStrip line)) litINT ||
    startsWithL (pyUpper (pyStrip line)) litEXT

/-- `scene_validator.is_transition`:
`line.strip().upper().endswith(('TO:', 'OUT:', 'IN:'))`. -/
def is_transition (line : List Char) : Bool :=
  endsWithL (pyUpper (pyStrip line)) litTO ||
    endsWithL (pyUpper (pyStrip line)) litOUT ||
    endsWithL (pyUpper (pyStrip line)) litIN

/-- `scene_validator.is_emotion`:
`line.strip().startswith('(') and line.strip().endswith(')')`. -/
def is_emotion (line : List Char) : Bool :=
  startsWithL (pyStrip line) [ '(' ] && endsWithL (pyStrip line) [ ')' ]

/-- `scene_validator.is_character_name`: all-caps, length at most 40, word
count in `[1, 4]`, and none of heading / transition / emotion.  The source
strips once and then calls the other predicates on the stripped line. -/
def is_character_name (line : List Char) : Bool :=
  let l := pyStrip line
  pyIsUpper l && decide (l.length ≤ 40) &&
    decide (1 ≤ (pyWords l).length) && decide ((pyWords l).length ≤ 4) &&
    !is_scene_heading l && !is_transition l && !is_emotion l

/-- `scene_validator.is_action`: nonempty, none of the other four categories,
and not ending in `?` or `!`. -/
def is_action (line : List Char) : Bool :=
  let l := pyStrip line
  !l.isEmpty && !is_scene_heading l && !is_transition l &&
    !is_character_name l && !is_emotion l &&
    !(endsWithL l [ '?' ] || endsWithL l [ '!' ])

/-- `scene_validator.is_dialogue`: nonempty, none of the other four
categories, and ending in `.`, `?`, `!` or having more than 3 words. -/
def is_dialogue (line : List Char) : Bool :=
  let l := pyStrip line
  !l.isEmpty && !is_scene_heading l && !is_transition l &&
    !is_character_name l && !is_emotion l &&
    (endsWithL l [ '.' ] || endsWithL l [ '?' ] || endsWithL l [ '!' ] ||
      decide (3 < (pyWords l).length))

/-- Python `script.split('\n')`: split on newline, keeping empty pieces. -/
def splitOnNl (s : List Char) : List (List Char) :=
  s.splitOn '\n'

/-- Pointwise bump of a count table, modelling `defaultdict(int)` updates
`d[k] += n`. -/
def bump (f : List Char → Nat) (k : List Char) (n : Nat) : List Char → Nat :=
  fun x => if x = k then f x + n else f x

/-- State of the `character_tracking` scan in `scene_validator.py`:
the current speaker and the per-character dialogue-line counts. -/
structure CTState where
  current : Option (List Char)
  counts : List Char → Nat

/-- One iteration of the `character_tracking` loop.  The source strips the
line, then: a character-name line sets the speaker to the stripped line; a
dialogue line is counted for the speaker (`UNKNOWN` when the speaker is
`None` or empty, per Python truthiness); an empty line clears the speaker;
anything else leaves the state unchanged. -/
def ctStep (st : CTState) (raw : List Char) : CTState :=
  let line := pyStrip raw
  if is_character_name line then { st with current := some line }
  else if is_dialogue line then
    match st.current with
    | some c =>
        if c ≠ [] then { st with counts := bump st.counts c 1 }
        else { st with counts := bump st.counts UNKNOWN 1 }
    | none => { st with counts := bump st.counts UNKNOWN 1 }
  else if line = [] then { st with current := none }
  else st

/-- The `character_tracking` scan over the lines of `script.strip().split('\n')`. -/
def ctRun (lines : List (List Char)) : CTState :=
  lines.foldl ctStep { current := none, counts := fun _ => 0 }

/-- State of `character_speaking_stats` in `speaking_time.py`. -/
structure SSState where
  current : Option (List Char)
  wordCount : List Char → Nat
  lineCount : List Char → Nat
  totalLines : Nat

/-- One iteration of the `character_speaking_stats` loop.  Unlike
`character_tracking`, the loop body has no branch for blank lines: only a
character-name line or a dialogue line changes the state. -/
def ssStep (st : SSState) (line : List Char) : SSState :=
  if is_character_name line then
    { st with current := some (pyUpper (pyStrip line)) }
  else if is_dialogue line then
    let words := (pyWords line).length
    let key := match st.current with
      | some c => if c ≠ [] then c else UNKNOWN
      | none => UNKNOWN
    { st with totalLines := st.totalLines + 1,
              wordCount := bump st.wordCount key words,
              lineCount := bump st.lineCount key 1 }
  else st

/-- The `character_speaking_stats` scan over `script.strip().split('\n')`. -/
def ssRun (lines : List (List Char)) : SSState :=
  lines.foldl ssStep
    { current := none, wordCount := fun _ => 0, lineCount := fun _ => 0,
      totalLines := 0 }

/-- Per-scene scan state of `scene_pacing_and_distribution` in
`pacing_and_distribution.py`: the per-scene speaker and dialogue/action
counters together with the script-wide per-character counts. -/
structure PacScanState where
  current : Option (List Char)
  dialogueCount : Nat
  actionCount : Nat
  charLines : List Char → Nat
  totalDialogue : Nat

/-- One iteration of the inner per-scene loop of
`scene_pacing_and_distribution`.  There is no branch for blank lines. -/
def pacStep (st : PacScanState) (line : List Char) : PacScanState :=
  if is_character_name line then
    { st with current := some (pyUpper (pyStrip line)) }
  else if is_dialogue line then
    let key := match st.current with
      | some c => if c ≠ [] then c else UNKNOWN
      | none => UNKNOWN
    { st with dialogueCount := st.dialogueCount + 1,
              totalDialogue := st.totalDialogue + 1,
              charLines := bump st.charLines key 1 }
  else if is_action line then { st with actionCount := st.actionCount + 1 }
  else st

/-- The per-scene scan of `scene_pacing_and_distribution`: for each scene the
speaker and the per-scene counters restart (`current_character = None`,
`dialogue_count = 0`, `action_count = 0`) while the script-wide counts are
carried in. -/
def pacSceneScan (charLines : List Char → Nat) (totalDialogue : Nat)
    (content : List (List Char)) : PacScanState :=
  content.foldl pacStep
    { current := none, dialogueCount := 0, actionCount := 0,
      charLines := charLines, totalDialogue := totalDialogue }

/-- The regex word class `\w` (ASCII model), for `\b` boundaries. -/
def wordChar (c : Char) : Bool :=
  c.isAlphanum || c = '_'

/-- Whether the last character of a matched chunk is a word character
(the boundary context carried past a match). -/
def lastIsWord (l : List Char) : Bool :=
  match l.getLast? with
  | some c => wordChar c
  | none => false

/-- The `\b` test after consuming `j` characters of `s`: a word boundary
holds when the last consumed character and the following character (end of
input counting as non-word) differ in wordness. -/
def capBoundary (s : List Char) (j : Nat) : Bool :=
  match (s.take j).getLast? with
  | none => false
  | some last =>
    match (s.drop j).head? with
    | none => wordChar last
    | some nxt => wordChar last != wordChar nxt

/-- One anchored attempt of `[A-Z][A-Z ]{1,39}\b` at the head of `s` (the
leading `\b` is the caller's responsibility): the first character must be
`A-Z`, then the greedy `{1,39}` tail is tried from its maximum length down
to 1 until the trailing `\b` holds, returning the full match length. -/
def capMatchLen (s : List Char) : Option Nat :=
  match s with
  | [] => none
  | c :: rest =>
    if c.isUpper then
      let m := min (rest.takeWhile (fun d => d.isUpper || d = ' ')).length 39
      (List.range m).findSome? (fun t =>
        let k := m - t
        if capBoundary (c :: rest) (1 + k) then some (1 + k) else none)
    else none

/-- The left-to-right non-overlapping scan of
`re.findall(r'\b[A-Z][A-Z ]{1,39}\b', line)`: at each position with no word
character immediately before it an anchored match is attempted; on success
the match is emitted and scanning resumes at its end.  The fuel argument is
only a structural-recursion bound: every step consumes at least one
character, so fuel equal to the input length never runs out. -/
def capFindAllF : Nat → List Char → Bool → List (List Char)
  | 0, _, _ => []
  | _, [], _ => []
  | fuel + 1, c :: rest, prevWord =>
    if !prevWord then
      match capMatchLen (c :: rest) with
      | some len =>
          (c :: rest).take len ::
            capFindAllF fuel (rest.drop (len - 1)) (lastIsWord ((c :: rest).take len))
      | none => capFindAllF fuel rest (wordChar c)
    else capFindAllF fuel rest (wordChar c)

/-- `re.findall(r'\b[A-Z][A-Z ]{1,39}\b', line)` as used by the
`is_action` branch of `character_development_validator`. -/
def possible_names (line : List Char) : List (List Char) :=
  capFindAllF line.length line false

/-- `if name not in introduced: introduced[name] = i + 1` on the
insertion-ordered `introduced` dictionary. -/
def introduce (intro : List (List Char × Nat)) (name : List Char)
    (lineNo : Nat) : List (List Char × Nat) :=
  if intro.any (fun p => p.1 = name) then intro else intro ++ [(name, lineNo)]

/-- The `for name in possible_names` loop: each found name is stripped and
recorded if new. -/
def introduceAll (intro : List (List Char × Nat)) (names : List (List Char))
    (lineNo : Nat) : List (List Char × Nat) :=
  names.foldl (fun acc n => introduce acc (pyStrip n) lineNo) intro

/-- `scene_map[char].add(scenes)`: per-character set of scene numbers. -/
def addScene (m : List Char → List Nat) (k : List Char) (s : Nat) :
    List Char → List Nat :=
  fun x => if x = k then (if (m k).contains s then m k else m k ++ [s]) else m x

/-- Python truthiness of `current_character` (`None` and the empty string
are falsy). -/
def pyTruthy : Option (List Char) → Bool
  | some c => c ≠ []
  | none => false

/-- The speaker name read from a truthy `current_character`. -/
def currentName : Option (List Char) → List Char
  | some c => c
  | none => []

/-- State of `character_development_validator` in `character_development.py`:
the current speaker, per-character spoken-line counts, the
introduction-order dictionary with first-appearance line numbers, the scene
counter and the per-character scene sets. -/
structure CDState where
  current : Option (List Char)
  speakers : List Char → Nat
  introduced : List (List Char × Nat)
  scenes : Nat
  sceneMap : List Char → List Nat

/-- The initial `character_development_validator` state. -/
def initCD : CDState :=
  { current := none, speakers := fun _ => 0, introduced := [], scenes := 0,
    sceneMap := fun _ => [] }

/-- One iteration of the `character_development_validator` loop at 0-based
index `i`: scene headings bump the scene counter; a character-name line
sets the speaker and records its introduction; `elif is_dialogue(line) and
current_character:` counts a spoken line only when the speaker is truthy —
a speakerless dialogue line falls through to the `is_action` check and is
never counted (there is no `UNKNOWN` branch); an action line introduces its
all-caps names; a blank line clears the speaker. -/
def cdStep (i : Nat) (st : CDState) (raw : List Char) : CDState :=
  let line := pyStrip raw
  if is_scene_heading line then { st with scenes := st.scenes + 1 }
  else if is_character_name line then
    { st with current := some (pyStrip line),
              introduced := introduce st.introduced (pyStrip line) (i + 1) }
  else if is_dialogue line && pyTruthy st.current then
    { st with speakers := bump st.speakers (currentName st.current) 1,
              sceneMap := addScene st.sceneMap (currentName st.current) st.scenes }
  else if is_action line then
    { st with introduced := introduceAll st.introduced (possible_names line) (i + 1) }
  else if line = [] then { st with current := none }
  else st

/-- The `character_development_validator` scan:
`for i, line in enumerate(script.strip().split('\n'))`. -/
def cdRun (lines : List (List Char)) : CDState :=
  lines.enum.foldl (fun st p => cdStep p.1 st p.2) initCD

/-- A scene record as built by `scene_pacing_and_distribution` and
`readability_analysis` (identical code in both): stripped heading, raw
content lines, 1-based index assigned in encounter order. -/
structure Scene where
  heading : List Char
  content : List (List Char)
  index : Nat

/-- Closing the in-progress scene buffer: it is appended only when its
heading is set and truthy (`if current_scene["heading"]:`). -/
def flushScene (cur : Option (List Char × Nat)) (content : List (List Char)) :
    List Scene :=
  match cur with
  | some (h, i) => if h ≠ [] then [{ heading := h, content := content, index := i }] else []
  | none => []

/-- The segmentation loop of `scene_pacing_and_distribution` (and, line for
line, of `readability_analysis`): on a scene heading the current buffer is
flushed and a new one opened with the stripped heading and the next counter
value; any other line is appended raw to the current content; at the end the
open buffer is flushed. -/
def segLoop : List (List Char) → List Scene → Option (List Char × Nat) →
    List (List Char) → Nat → List Scene
  | [], scenes, cur, content, _ => scenes ++ flushScene cur content
  | line :: rest, scenes, cur, content, counter =>
    if is_scene_heading line then
      segLoop rest (scenes ++ flushScene cur content)
        (some (pyStrip line, counter + 1)) [] (counter + 1)
    else
      segLoop rest scenes cur (content ++ [line]) counter

/-- Scene segmentation as in the source: the loop started from the empty
buffer (`{"heading": None, "content": []}`) and counter 0. -/
def segmentScenes (lines : List (List Char)) : List Scene :=
  segLoop lines [] none [] 0

/-- Reference form of the segmentation used in proofs: each heading line
opens a scene whose content is everything up to the next heading. -/
def segRec (lines : List (List Char)) (c : Nat) : List Scene :=
  match lines with
  | [] => []
  | l :: rest =>
    if is_scene_heading l then
      { heading := pyStrip l,
        content := rest.takeWhile (fun x => !is_scene_heading x),
        index := c + 1 }
        :: segRec (rest.dropWhile (fun x => !is_scene_heading x)) (c + 1)
    else segRec rest c
termination_by lines.length
decreasing_by
  · exact Nat.lt_succ_of_le ((List.dropWhile_sublist _).length_le)
  · exact Nat.lt_succ_self _

/-- The script-wide state threaded through the outer scene loop of
`scene_pacing_and_distribution`: the per-character counts and total
dialogue lines carry across scenes, together with the per-scene
`(index, dialogue, action)` report entries.  Crucially, no speaker field is
threaded here: `current_character` is local to each scene's inner scan. -/
structure PacOuterState where
  charLines : List Char → Nat
  totalDialogue : Nat
  reports : List (Nat × Nat × Nat)

/-- One iteration of the outer `for scene in scenes` loop of
`scene_pacing_and_distribution`: the scene's content is scanned by
`pacSceneScan`, which restarts `current_character = None`, and the
script-wide counts plus the scene's report entry are carried forward. -/
def pacOuterStep (st : PacOuterState) (s : Scene) : PacOuterState :=
  let fin := pacSceneScan st.charLines st.totalDialogue s.content
  { charLines := fin.charLines, totalDialogue := fin.totalDialogue,
    reports := st.reports ++ [(s.index, fin.dialogueCount, fin.actionCount)] }

/-- The full analysis pipeline of `scene_pacing_and_distribution`: segment
the lines into scenes, then run the outer loop over them. -/
def scene_pacing_and_distribution (lines : List (List Char)) : PacOuterState :=
  (segmentScenes lines).foldl pacOuterStep
    { charLines := fun _ => 0, totalDialogue := 0, reports := [] }

/-- State of `scene_structure_validator` in `scene_validator.py`.  Issue
messages are represented by the reported 1-based line number `i + 1`; the
surrounding report-string assembly is outside the classification core per
the specification's scope. -/
structure SVState where
  sceneCount : Nat
  validHeadings : List (List Char)
  headerIssues : List Nat
  sceneIssues : List Nat
  charLines : List Char → Nat
  actionPresent : Bool

/-- The initial `scene_structure_validator` state. -/
def initSV : SVState :=
  { sceneCount := 0, validHeadings := [], headerIssues := [], sceneIssues := [],
    charLines := fun _ => 0, actionPresent := false }

/-- One iteration of the `scene_structure_validator` loop at index `i`.
Every Python subscript `lines[j]` is modelled by `lines.get? j`, with `none`
propagated as the analogue of an uncaught `IndexError`; the source's guards
(`i + 1 >= len(lines)`, `i >= 1`, `i >= 2`) are kept exactly, so totality of
the whole scan is a theorem, not an assumption.  Neighbour lines are read
raw, exactly as in the source. -/
def svStep (lines : List (List Char)) (i : Nat) (st : SVState) :
    Option SVState :=
  match lines[i]? with
  | none => none
  | some raw =>
    let line := pyStrip raw
    if line = [] then some st
    else if is_scene_heading line then
      some { st with sceneCount := st.sceneCount + 1,
                     validHeadings := st.validHeadings ++ [line] }
    else if is_transition line then
      if i + 1 ≥ lines.length then
        some { st with headerIssues := st.headerIssues ++ [i + 1] }
      else
        match lines[i + 1]? with
        | none => none
        | some nxt =>
          if is_scene_heading nxt then some st
          else some { st with headerIssues := st.headerIssues ++ [i + 1] }
    else if is_action line then some { st with actionPresent := true }
    else if is_dialogue line then
      if 1 ≤ i then
        match lines.get? (i - 1) with
        | none => none
        | some prev =>
          if is_character_name prev then
            some { st with charLines := bump st.charLines (pyUpper (pyStrip prev)) 1 }
          else if 2 ≤ i then
            match lines[i - 1]?, lines[i - 2]? with
            | some p1, some p2 =>
              if is_emotion p1 && is_character_name p2 then
                some { st with charLines := bump st.charLines (pyUpper (pyStrip p2)) 1 }
              else
                some { st with charLines := bump st.charLines UNKNOWN 1,
                               sceneIssues := st.sceneIssues ++ [i + 1] }
            | _, _ => none
          else
            some { st with charLines := bump st.charLines UNKNOWN 1,
                           sceneIssues := st.sceneIssues ++ [i + 1] }
      else
        some { st with charLines := bump st.charLines UNKNOWN 1,
                       sceneIssues := st.sceneIssues ++ [i + 1] }
    else some st

/-- The `scene_structure_validator` scan: `for i, line in enumerate(lines)`,
with a Python exception modelled as `none`. -/
def svRun (lines : List (List Char)) : Option SVState :=
  (List.range lines.length).foldlM (fun st i => svStep lines i st) initSV

/-- `scene_structure_validator` on a whole script:
`lines = script.strip().split('\n')`. -/
def svRunScript (script : List Char) : Option SVState :=
  svRun (splitOnNl (pyStrip script))

/-- `character_tracking` on a whole script, same line splitting. -/
def ctRunScript (script : List Char) : CTState :=
  ctRun (splitOnNl (pyStrip script))

def litCUTTO : List Char := "CUT TO:".data

def litFADEIN : List Char := "FADE IN:".data

def litFADEOUT : List Char := "FADE OUT:".data

def litDISSOLVETO : List Char := "DISSOLVE TO:".data

/-- `text_to_script.SCENE_RE`, `^\s*(INT\.|EXT\.)` case-insensitive, tested
with `re.match`: after leading whitespace the upper-cased text starts with
`INT.` or `EXT.`. -/
def sceneREMatch (l : List Char) : Bool :=
  startsWithL (pyUpper (l.dropWhile pyIsSpace)) litINT ||
    startsWithL (pyUpper (l.dropWhile pyIsSpace)) litEXT

/-- `text_to_script.TRANSITION_RE`,
`^\s*(CUT TO:|FADE (IN|OUT):|DISSOLVE TO:)` case-insensitive, tested with
`re.match`. -/
def transitionREMatch (l : List Char) : Bool :=
  startsWithL (pyUpper (l.dropWhile pyIsSpace)) litCUTTO ||
    startsWithL (pyUpper (l.dropWhile pyIsSpace)) litFADEIN ||
    startsWithL (pyUpper (l.dropWhile pyIsSpace)) litFADEOUT ||
    startsWithL (pyUpper (l.dropWhile pyIsSpace)) litDISSOLVETO

/-- The regex class `[\w\-\s]` of `DIALOGUE_RE` (ASCII model of `\w`). -/
def wchar (c : Char) : Bool :=
  c.isAlphanum || c = '_' || c = '-' || pyIsSpace c

/-- The tail `\s*:\s*(.+)$` of `DIALOGUE_RE`: skip whitespace (greedy, then
the literal `:` is forced), then the dialogue group.  After the colon the
greedy `\s*` takes all whitespace and `(.+)` needs at least one character;
when everything after the colon is whitespace the engine backtracks one
character, so the group is the final whitespace character. -/
def afterColon (r : List Char) : Option (List Char) :=
  match r.dropWhile pyIsSpace with
  | ':' :: rest =>
    if rest = [] then none
    else
      let d := rest.dropWhile pyIsSpace
      if d = [] then (rest.getLast?).map (fun c => [c]) else some d
  | _ => none

/-- The optional group `\s*\(([^)]+)\)` of `DIALOGUE_RE` attempted after the
name: skip whitespace, require `(`, capture the (nonempty) run up to the
first `)`, require that `)`.  Returns the captured text and the remainder. -/
def parenAttempt (rest : List Char) : Option (List Char × List Char) :=
  match rest.dropWhile pyIsSpace with
  | '(' :: t =>
    let content := t.takeWhile (fun c => c ≠ ')')
    match t.dropWhile (fun c => c ≠ ')') with
    | ')' :: rem => if content ≠ [] then some (content, rem) else none
    | _ => none
  | _ => none

/-- One backtracking attempt of `DIALOGUE_RE` with the lazy name group bound
to the first `i` characters: the greedy optional parenthetical is tried
first, then the bare `\s*:\s*(.+)$` continuation. -/
def dialogueTryAt (s : List Char) (i : Nat) :
    Option (List Char × Option (List Char) × List Char) :=
  let name := s.take i
  let rest := s.drop i
  match parenAttempt rest with
  | some (content, rem) =>
    match afterColon rem with
    | some d => some (name, some content, d)
    | none =>
      match afterColon rest with
      | some d => some (name, none, d)
      | none => none
  | none =>
    match afterColon rest with
    | some d => some (name, none, d)
    | none => none

/-- `text_to_script.DIALOGUE_RE`,
`^\s*([\w\-\s]+?)(?:\s*\(([^)]+)\))?\s*:\s*(.+)$`, tested with `re.match`
on an already stripped single line (so the leading `\s*` is empty and the
line holds no newline).  The lazy `+?` tries name lengths from 1 upward;
every name character must lie in `[\w\-\s]`. -/
def dialogueREMatch (s : List Char) :
    Option (List Char × Option (List Char) × List Char) :=
  (List.range' 1 (s.takeWhile wchar).length).findSome? (fun i => dialogueTryAt s i)

/-- Python `str.center(w)` with space fill: CPython puts the extra space on
the left exactly when both the margin and the width are odd. -/
def pyCenter (w : Nat) (s : List Char) : List Char :=
  if w ≤ s.length then s
  else
    let marg := w - s.length
    let left := marg / 2 + (if marg % 2 = 1 && w % 2 = 1 then 1 else 0)
    List.replicate left ' ' ++ s ++ List.replicate (marg - left) ' '

/-- Python format `f"{s:>w}"`: right-align with spaces to width `w`. -/
def pyRJust (w : Nat) (s : List Char) : List Char :=
  if w ≤ s.length then s else List.replicate (w - s.length) ' ' ++ s

/-- The per-line body of `text_to_script.format_script`: strip, pass blanks
through, then the cascade scene heading, transition, inline dialogue
pattern, character name, emotion, dialogue, action — in the source's order. -/
def formatLine (raw : List Char) : List (List Char) :=
  let line := pyStrip raw
  if line = [] then [[]]
  else if sceneREMatch line then [pyStrip (pyUpper line)]
  else if transitionREMatch line then [pyRJust 60 (pyUpper line)]
  else
    match dialogueREMatch line with
    | some (n, p, d) =>
      [pyCenter 40 (pyStrip (pyUpper n))] ++
        (match p with
         | some pc =>
             if pc ≠ [] then [List.replicate 10 ' ' ++ '(' :: (pyStrip pc ++ [ ')' ])]
             else []
         | none => []) ++
        [List.replicate 5 ' ' ++ pyStrip d]
    | none =>
      if is_character_name line then [pyCenter 40 (pyStrip (pyUpper line))]
      else if is_emotion line then [List.replicate 10 ' ' ++ pyStrip line]
      else if is_dialogue line then [List.replicate 5 ' ' ++ pyStrip line]
      else [line]

/-- Python `str.splitlines()` worker over `\n`, `\r\n` and `\r`, with no
empty final piece when the text ends in a line break. -/
def splitlinesGo : List Char → List Char → List (List Char)
  | [], acc => [acc.reverse]
  | '\r' :: '\n' :: rest, acc =>
    acc.reverse :: (match rest with | [] => [] | _ :: _ => splitlinesGo rest [])
  | '\n' :: rest, acc =>
    acc.reverse :: (match rest with | [] => [] | _ :: _ => splitlinesGo rest [])
  | '\r' :: rest, acc =>
    acc.reverse :: (match rest with | [] => [] | _ :: _ => splitlinesGo rest [])
  | c :: rest, acc => splitlinesGo rest (c :: acc)

/-- Python `str.splitlines()` (ASCII line breaks). -/
def pySplitlines (s : List Char) : List (List Char) :=
  match s with
  | [] => []
  | _ :: _ => splitlinesGo s []

/-- `text_to_script.format_script`: split the text into lines, format each,
and join the emitted lines with `\n`. -/
def format_script (text : List Char) : List Char :=
  List.intercalate [ '\n' ] ((pySplitlines text).flatMap formatLine)

def exHeadingTransition : List Char := "INT. CUT TO:".data

def exInline : List Char := "CUT TO: the roof".data

def exInlineName : List Char := "CUT TO".data

def exInlineDialogue : List Char := "the roof".data

def exSmashCut : List Char := "SMASH CUT TO:".data

def exActionDialogue : List Char := "He picks up the glass and stares at it.".data

def exDigits : List Char := "123".data

def exBob : List Char := "BOB".data

def exHello : List Char := "Hello there my good friend.".data

def exQuestion : List Char := "hello there?".data

def exIntRoom : List Char := "INT. ROOM - DAY".data

def exCutTo : List Char := "CUT TO:".data

/-- The three-line script showing that `character_speaking_stats` keeps the
speaker across a blank line. -/
def exSpeakerLines : List (List Char) := [exBob, [], exHello]

def exBobInline : List Char := "BOB: hi there".data

def exParen : List Char := "A-B (ok): fine, right?".data

def exParenName : List Char := "A-B".data

def exParenContent : List Char := "ok".data

def exParenDialogue : List Char := "fine, right?".data

def exBobName : List Char := "BOB".data

def exBobDialogue : List Char := "hi there".data

def exFindA : List Char := "JOHN enters the ROOM.".data

def exFindB : List Char := "BOB AND ALICE run.".data

def exFindC : List Char := "MR. SMITH WAITS".data

def exFindD : List Char := "A-Z TEST here".data

-- ## Base lemmas about the string model

theorem dropWhile_cons_head {α} (p : α → Bool) (l : List α) (c : α) (t : List α)
    (h : l.dropWhile p = c :: t) : p c = false := by
  have := List.head?_dropWhile_not p l
  rw [h] at this
  simpa using this

theorem dropWhile_eq_self_of_head {α} (p : α → Bool) (c : α) (t : List α)
    (h : p c = false) : (c :: t).dropWhile p = c :: t := by
  simp [List.dropWhile_cons, h]

theorem dropWhile_idem {α} (p : α → Bool) (l : List α) :
    (l.dropWhile p).dropWhile p = l.dropWhile p := by
  cases h : l.dropWhile p with
  | nil => simp
  | cons c t => exact dropWhile_eq_self_of_head p c t (dropWhile_cons_head p l c t h)

theorem dropTrailing_prefix (s : List Char) : dropTrailing s <+: s := by
  have h1 : s.reverse.dropWhile pyIsSpace <:+ s.reverse := List.dropWhile_suffix _
  have h2 := List.reverse_prefix.mpr h1
  simpa [dropTrailing] using h2

theorem pyStrip_idem (s : List Char) : pyStrip (pyStrip s) = pyStrip s := by
  have hdrop : (pyStrip s).dropWhile pyIsSpace = pyStrip s := by
    cases h : pyStrip s with
    | nil => simp
    | cons c t =>
      refine dropWhile_eq_self_of_head pyIsSpace c t ?_
      obtain ⟨u, hu⟩ := dropTrailing_prefix (s.dropWhile pyIsSpace)
      have hps : dropTrailing (s.dropWhile pyIsSpace) = c :: t := h
      have hY : s.dropWhile pyIsSpace = c :: (t ++ u) := by
        have h2 : (c :: t) ++ u = s.dropWhile pyIsSpace := by rw [← hps]; exact hu
        simpa using h2.symm
      exact dropWhile_cons_head pyIsSpace s c (t ++ u) hY
  have hrev : (pyStrip s).reverse = (s.dropWhile pyIsSpace).reverse.dropWhile pyIsSpace := by
    simp [pyStrip, dropTrailing]
  show dropTrailing ((pyStrip s).dropWhile pyIsSpace) = pyStrip s
  rw [hdrop]
  show ((pyStrip s).reverse.dropWhile pyIsSpace).reverse = pyStrip s
  rw [hrev, dropWhile_idem, ← hrev, List.reverse_reverse]

theorem is_scene_heading_strip (l : List Char) :
    is_scene_heading (pyStrip l) = is_scene_heading l := by
  simp [is_scene_heading, pyStrip_idem]

theorem is_transition_strip (l : List Char) :
    is_transition (pyStrip l) = is_transition l := by
  simp [is_transition, pyStrip_idem]

theorem is_emotion_strip (l : List Char) :
    is_emotion (pyStrip l) = is_emotion l := by
  simp [is_emotion, pyStrip_idem]

theorem is_character_name_strip (l : List Char) :
    is_character_name (pyStrip l) = is_character_name l := by
  simp [is_character_name, pyStrip_idem, is_scene_heading_strip,
    is_transition_strip, is_emotion_strip]

theorem is_action_strip (l : List Char) :
    is_action (pyStrip l) = is_action l := by
  simp [is_action, pyStrip_idem, is_scene_heading_strip, is_transition_strip,
    is_emotion_strip, is_character_name_strip]

theorem is_dialogue_strip (l : List Char) :
    is_dialogue (pyStrip l) = is_dialogue l := by
  simp [is_dialogue, pyStrip_idem, is_scene_heading_strip, is_transition_strip,
    is_emotion_strip, is_character_name_strip]

theorem startsWithL_cons {s : List Char} {c : Char} {p : List Char}
    (h : startsWithL s (c :: p) = true) : ∃ t, s = c :: t := by
  cases s with
  | nil => simp [startsWithL] at h
  | cons a u =>
    refine ⟨u, ?_⟩
    simp only [startsWithL, List.length_cons, List.take_succ_cons, beq_iff_eq,
      List.cons.injEq] at h
    rw [h.1]

theorem scene_heading_head {l : List Char} (h : is_scene_heading l = true) :
    (∃ t, pyUpper (pyStrip l) = 'I' :: t) ∨ (∃ t, pyUpper (pyStrip l) = 'E' :: t) := by
  have hINT : litINT = 'I' :: 'N' :: 'T' :: '.' :: [] := rfl
  have hEXT : litEXT = 'E' :: 'X' :: 'T' :: '.' :: [] := rfl
  simp only [is_scene_heading, Bool.or_eq_true] at h
  rcases h with h1 | h1
  · rw [hINT] at h1
    exact Or.inl (startsWithL_cons h1)
  · rw [hEXT] at h1
    exact Or.inr (startsWithL_cons h1)

theorem transition_head {l : List Char} (h : is_transition l = true) :
    ∃ t, (pyUpper (pyStrip l)).reverse = ':' :: t := by
  have hTO : litTO.reverse = ':' :: 'O' :: 'T' :: [] := rfl
  have hOUT : litOUT.reverse = ':' :: 'T' :: 'U' :: 'O' :: [] := rfl
  have hIN : litIN.reverse = ':' :: 'N' :: 'I' :: [] := rfl
  simp only [is_transition, Bool.or_eq_true] at h
  rcases h with (h1 | h1) | h1
  · have h2 : startsWithL (pyUpper (pyStrip l)).reverse litTO.reverse = true := h1
    rw [hTO] at h2
    exact startsWithL_cons h2
  · have h2 : startsWithL (pyUpper (pyStrip l)).reverse litOUT.reverse = true := h1
    rw [hOUT] at h2
    exact startsWithL_cons h2
  · have h2 : startsWithL (pyUpper (pyStrip l)).reverse litIN.reverse = true := h1
    rw [hIN] at h2
    exact startsWithL_cons h2

theorem emotion_bounds {l : List Char} (h : is_emotion l = true) :
    (∃ t, pyStrip l = '(' :: t) ∧ (∃ t, (pyStrip l).reverse = ')' :: t) := by
  simp only [is_emotion, Bool.and_eq_true] at h
  obtain ⟨h1, h2⟩ := h
  refine ⟨startsWithL_cons h1, ?_⟩
  have h3 : startsWithL (pyStrip l).reverse (')' :: []) = true := h2
  exact startsWithL_cons h3

theorem heading_not_emotion {l : List Char} (h : is_scene_heading l = true) :
    is_emotion l = false := by
  cases he : is_emotion l with
  | false => rfl
  | true =>
    exfalso
    obtain ⟨⟨t, ht⟩, _⟩ := emotion_bounds he
    rcases scene_heading_head h with ⟨u, hu⟩ | ⟨u, hu⟩ <;>
    · rw [ht] at hu
      simp only [pyUpper, List.map_cons, List.cons.injEq] at hu
      exact absurd hu.1 (by decide)

theorem transition_not_emotion {l : List Char} (h : is_transition l = true) :
    is_emotion l = false := by
  cases he : is_emotion l with
  | false => rfl
  | true =>
    exfalso
    obtain ⟨_, ⟨t, ht⟩⟩ := emotion_bounds he
    obtain ⟨u, hu⟩ := transition_head h
    simp only [pyUpper, ← List.map_reverse, ht, List.map_cons,
      List.cons.injEq] at hu
    exact absurd hu.1 (by decide)

theorem character_name_excl {l : List Char} (h : is_character_name l = true) :
    is_scene_heading l = false ∧ is_transition l = false ∧ is_emotion l = false := by
  simp only [is_character_name, Bool.and_eq_true, Bool.not_eq_true'] at h
  obtain ⟨⟨⟨⟨⟨⟨hu, hlen⟩, hw1⟩, hw2⟩, hh⟩, ht⟩, he⟩ := h
  refine ⟨?_, ?_, ?_⟩
  · rw [← is_scene_heading_strip]; exact hh
  · rw [← is_transition_strip]; exact ht
  · rw [← is_emotion_strip]; exact he

theorem endsWithL_single_head {s : List Char} {c : Char}
    (h : endsWithL s ([ c ]) = true) : ∃ t, s.reverse = c :: t := by
  have h3 : startsWithL s.reverse (c :: []) = true := h
  exact startsWithL_cons h3

theorem endsWithL_distinct {s : List Char} {c d : Char} (hcd : c ≠ d)
    (h : endsWithL s ([ c ]) = true) : endsWithL s ([ d ]) = false := by
  cases hd : endsWithL s ([ d ]) with
  | false => rfl
  | true =>
    exfalso
    obtain ⟨t, ht⟩ := endsWithL_single_head h
    obtain ⟨u, hu⟩ := endsWithL_single_head hd
    rw [ht] at hu
    injection hu with h1 _
    exact hcd h1

theorem ctStep_current_not_cue (st : CTState) (raw : List Char)
    (h : is_character_name raw = false) :
    (ctStep st raw).current = st.current ∨ (ctStep st raw).current = none := by
  have h' : is_character_name (pyStrip raw) = false := by
    rw [is_character_name_strip]; exact h
  cases hd : is_dialogue (pyStrip raw) with
  | true =>
    left
    cases hc : st.current with
    | none => simp [ctStep, h', hd, hc]
    | some c =>
      by_cases hcc : c = []
      · simp [ctStep, h', hd, hc, hcc]
      · simp [ctStep, h', hd, hc, hcc]
  | false =>
    by_cases hb : pyStrip raw = []
    · right
      have e1 : is_character_name ([] : List Char) = false := by decide
      have e2 : is_dialogue ([] : List Char) = false := by decide
      simp [ctStep, hb, e1, e2]
    · left; simp [ctStep, h', hd, hb]

theorem ssStep_current_not_cue (st : SSState) (raw : List Char)
    (h : is_character_name raw = false) :
    (ssStep st raw).current = st.current := by
  cases hd : is_dialogue raw with
  | true => simp [ssStep, h, hd]
  | false => simp [ssStep, h, hd]

theorem pacStep_current_not_cue (st : PacScanState) (raw : List Char)
    (h : is_character_name raw = false) :
    (pacStep st raw).current = st.current := by
  by_cases hd : is_dialogue raw = true
  · simp [pacStep, h, hd]
  · by_cases ha : is_action raw = true
    · simp [pacStep, h, hd, ha]
    · simp [pacStep, h, hd, ha]

/-- C1 (counterexample): the four predicates `is_scene_heading`,
`is_transition`, `is_emotion`, `is_character_name` are not pairwise mutually
exclusive as the claim states: the line `INT. CUT TO:` satisfies both
`is_scene_heading` and `is_transition`. -/
theorem claim_C1_counterexample :
    is_scene_heading exHeadingTransition = true ∧
      is_transition exHeadingTransition = true := by
  exact ⟨by decide, by decide⟩

/-- C1 (amended): among `is_scene_heading`, `is_transition`, `is_emotion`,
`is_character_name` every pair is mutually exclusive except
`is_scene_heading` with `is_transition`, which can hold together (a line may
start with `INT.`/`EXT.` and also end with `TO:`, `OUT:` or `IN:`). -/
theorem claim_C1_amended (line : List Char) :
    (is_scene_heading line && is_emotion line) = false ∧
    (is_scene_heading line && is_character_name line) = false ∧
    (is_transition line && is_emotion line) = false ∧
    (is_transition line && is_character_name line) = false ∧
    (is_emotion line && is_character_name line) = false := by
  refine ⟨?_, ?_, ?_, ?_, ?_⟩
  · cases hh : is_scene_heading line with
    | false => rfl
    | true => simp [heading_not_emotion hh]
  · cases hc : is_character_name line with
    | false => simp
    | true => simp [(character_name_excl hc).1]
  · cases ht : is_transition line with
    | false => rfl
    | true => simp [transition_not_emotion ht]
  · cases hc : is_character_name line with
    | false => simp
    | true => simp [(character_name_excl hc).2.1]
  · cases hc : is_character_name line with
    | false => simp
    | true => simp [(character_name_excl hc).2.2]

/-- C5: a line whose stripped text is nonempty, ends in `.`, has more than 3
words and satisfies none of the four exclusive predicates satisfies both
`is_action` and `is_dialogue`. -/
theorem claim_C5_action_dialogue_overlap (raw : List Char)
    (hne : pyStrip raw ≠ [])
    (hdot : endsWithL (pyStrip raw) ([ '.' ]) = true)
    (_hwords : 3 < (pyWords (pyStrip raw)).length)
    (hh : is_scene_heading raw = false) (ht : is_transition raw = false)
    (he : is_emotion raw = false) (hc : is_character_name raw = false) :
    is_action raw = true ∧ is_dialogue raw = true := by
  have hq : endsWithL (pyStrip raw) ([ '?' ]) = false :=
    endsWithL_distinct (by decide) hdot
  have hx : endsWithL (pyStrip raw) ([ '!' ]) = false :=
    endsWithL_distinct (by decide) hdot
  have hh' : is_scene_heading (pyStrip raw) = false := by
    rw [is_scene_heading_strip]; exact hh
  have ht' : is_transition (pyStrip raw) = false := by
    rw [is_transition_strip]; exact ht
  have he' : is_emotion (pyStrip raw) = false := by
    rw [is_emotion_strip]; exact he
  have hc' : is_character_name (pyStrip raw) = false := by
    rw [is_character_name_strip]; exact hc
  have hne' : (pyStrip raw).isEmpty = false := by
    cases hp : pyStrip raw with
    | nil => exact absurd hp hne
    | cons a t => rfl
  constructor
  · simp [is_action, hne', hh', ht', hc', he', hq, hx]
  · simp [is_dialogue, hne', hh', ht', hc', he', hdot]

/-- C5 (witness): the spec's own example line satisfies every hypothesis and
both predicates. -/
theorem claim_C5_witness :
    is_action exActionDialogue = true ∧ is_dialogue exActionDialogue = true :=
  claim_C5_action_dialogue_overlap exActionDialogue (by decide) (by decide)
    (by decide) (by decide) (by decide) (by decide) (by decide)

/-- C9: a line whose stripped text has no cased character fails
`is_character_name` (because `str.isupper` needs a cased character), and in
each of the three current-speaker scans such a line can never install itself
as the speaker: the `character_tracking` step leaves the speaker unchanged or
clears it, and the `character_speaking_stats` and
`scene_pacing_and_distribution` steps leave it unchanged. -/
theorem claim_C9_no_cased_never_speaker (raw : List Char)
    (h : (pyStrip raw).all (fun c => !isCased c) = true) :
    is_character_name raw = false ∧
    (∀ st : CTState,
      (ctStep st raw).current = st.current ∨ (ctStep st raw).current = none) ∧
    (∀ st : SSState, (ssStep st raw).current = st.current) ∧
    (∀ st : PacScanState, (pacStep st raw).current = st.current) := by
  have hcase : is_character_name raw = false := by
    have hany : (pyStrip raw).any isCased = false := by
      rw [List.any_eq_false]
      intro x hx
      have hx2 := (List.all_eq_true.mp h) x hx
      simpa using hx2
    simp [is_character_name, pyIsUpper, hany]
  exact ⟨hcase, fun st => ctStep_current_not_cue st raw hcase,
    fun st => ssStep_current_not_cue st raw hcase,
    fun st => pacStep_current_not_cue st raw hcase⟩

/-- C9 (witness): the digits-only line `123` is rejected as a character
name. -/
theorem claim_C9_witness : is_character_name exDigits = false :=
  (claim_C9_no_cased_never_speaker exDigits (by decide)).1

theorem dialogue_not_cue {l : List Char} (h : is_dialogue l = true) :
    is_character_name (pyStrip l) = false := by
  simp only [is_dialogue, Bool.and_eq_true, Bool.not_eq_true'] at h
  exact h.1.1.2

theorem foldl_ct_current_none (lines : List (List Char)) :
    ∀ st : CTState, st.current = none →
      (∀ l ∈ lines, is_character_name l = false) →
      (lines.foldl ctStep st).current = none := by
  induction lines with
  | nil => intro st h _; simpa using h
  | cons l rest ih =>
    intro st h hall
    have hl : is_character_name l = false := hall l (by simp)
    have hstep : (ctStep st l).current = none := by
      rcases ctStep_current_not_cue st l hl with h1 | h1
      · rw [h1, h]
      · exact h1
    simp only [List.foldl_cons]
    exact ih (ctStep st l) hstep (fun x hx => hall x (by simp [hx]))

theorem foldl_ss_current_none (lines : List (List Char)) :
    ∀ st : SSState, st.current = none →
      (∀ l ∈ lines, is_character_name l = false) →
      (lines.foldl ssStep st).current = none := by
  induction lines with
  | nil => intro st h _; simpa using h
  | cons l rest ih =>
    intro st h hall
    have hl : is_character_name l = false := hall l (by simp)
    have hstep : (ssStep st l).current = none := by
      rw [ssStep_current_not_cue st l hl, h]
    simp only [List.foldl_cons]
    exact ih (ssStep st l) hstep (fun x hx => hall x (by simp [hx]))

/-- C6 (counterexample): `SMASH CUT TO:` satisfies the `is_transition`
predicate, is no scene heading, and does not match the inline dialogue
pattern, yet `format_script` renders it verbatim as an action line, not
upper-cased right-aligned to column 60. -/
theorem claim_C6_counterexample :
    is_transition exSmashCut = true ∧
    sceneREMatch (pyStrip exSmashCut) = false ∧
    dialogueREMatch (pyStrip exSmashCut) = none ∧
    formatLine exSmashCut = [exSmashCut] ∧
    formatLine exSmashCut ≠ [pyRJust 60 (pyUpper (pyStrip exSmashCut))] := by
  exact ⟨by decide, by decide, by decide, by decide, by decide⟩

/-- C6 (amended): the formatter's transition rule is keyed to
`TRANSITION_RE`, not to the `is_transition` predicate: every line that,
after leading whitespace, starts case-insensitively with `CUT TO:`,
`FADE IN:`, `FADE OUT:` or `DISSOLVE TO:` and is no `SCENE_RE` match is
rendered upper-cased and right-aligned to the transition column width 60. -/
theorem claim_C6_amended (raw : List Char)
    (ht : transitionREMatch (pyStrip raw) = true)
    (hs : sceneREMatch (pyStrip raw) = false) :
    formatLine raw = [pyRJust 60 (pyUpper (pyStrip raw))] := by
  have hne : pyStrip raw ≠ [] := by
    intro h0
    rw [h0] at ht
    exact absurd ht (by decide)
  simp [formatLine, hne, hs, ht]

/-- C6 (witness): the transition line `CUT TO:` is right-aligned. -/
theorem claim_C6_witness :
    formatLine exCutTo = [pyRJust 60 (pyUpper (pyStrip exCutTo))] :=
  claim_C6_amended exCutTo (by decide) (by decide)

/-- C3 (counterexample): the inline pattern does not win over the earlier
rules: `CUT TO: the roof` matches the inline `Name: dialogue` pattern, yet
`format_script` emits the single right-aligned transition line, not the
multi-line name/dialogue rendering rule (1) would produce. -/
theorem claim_C3_counterexample :
    dialogueREMatch (pyStrip exInline) = some (exInlineName, none, exInlineDialogue) ∧
    formatLine exInline = [pyRJust 60 (pyUpper (pyStrip exInline))] ∧
    (formatLine exInline).length = 1 := by
  exact ⟨by decide, by decide, by decide⟩

/-- C3 (amended): `format_script` applies its rules per stripped line in
this order, first match winning: (1) blank lines pass through; (2)
`SCENE_RE` upper-cased left-aligned; (3) `TRANSITION_RE` upper-cased
right-aligned to 60; (4) the inline `Name[(parenthetical)]: dialogue`
pattern as centered name, optional indented parenthetical and indented
dialogue; (5) `is_character_name` upper-cased centered to 40; (6)
`is_emotion` indented 10; (7) `is_dialogue` indented 5; (8) otherwise the
stripped line verbatim as action.  In particular a line matching both the
transition pattern and the inline pattern is rendered as a transition. -/
theorem claim_C3_amended (raw : List Char) :
    (pyStrip raw = [] → formatLine raw = [[]]) ∧
    (sceneREMatch (pyStrip raw) = true →
      formatLine raw = [pyStrip (pyUpper (pyStrip raw))]) ∧
    (sceneREMatch (pyStrip raw) = false →
      transitionREMatch (pyStrip raw) = true →
      formatLine raw = [pyRJust 60 (pyUpper (pyStrip raw))]) ∧
    (∀ n p d, sceneREMatch (pyStrip raw) = false →
      transitionREMatch (pyStrip raw) = false →
      dialogueREMatch (pyStrip raw) = some (n, p, d) →
      formatLine raw =
        [pyCenter 40 (pyStrip (pyUpper n))] ++
          (match p with
           | some pc =>
               if pc ≠ [] then
                 [List.replicate 10 ' ' ++ '(' :: (pyStrip pc ++ [ ')' ])]
               else []
           | none => []) ++
          [List.replicate 5 ' ' ++ pyStrip d]) ∧
    (sceneREMatch (pyStrip raw) = false →
      transitionREMatch (pyStrip raw) = false →
      dialogueREMatch (pyStrip raw) = none → is_character_name raw = true →
      formatLine raw = [pyCenter 40 (pyStrip (pyUpper (pyStrip raw)))]) ∧
    (sceneREMatch (pyStrip raw) = false →
      transitionREMatch (pyStrip raw) = false →
      dialogueREMatch (pyStrip raw) = none → is_character_name raw = false →
      is_emotion raw = true →
      formatLine raw = [List.replicate 10 ' ' ++ pyStrip (pyStrip raw)]) ∧
    (sceneREMatch (pyStrip raw) = false →
      transitionREMatch (pyStrip raw) = false →
      dialogueREMatch (pyStrip raw) = none → is_character_name raw = false →
      is_emotion raw = false → is_dialogue raw = true →
      formatLine raw = [List.replicate 5 ' ' ++ pyStrip (pyStrip raw)]) ∧
    (pyStrip raw ≠ [] → sceneREMatch (pyStrip raw) = false →
      transitionREMatch (pyStrip raw) = false →
      dialogueREMatch (pyStrip raw) = none → is_character_name raw = false →
      is_emotion raw = false → is_dialogue raw = false →
      formatLine raw = [pyStrip raw]) := by
  refine ⟨?_, ?_, ?_, ?_, ?_, ?_, ?_, ?_⟩
  · intro hb
    simp [formatLine, hb]
  · intro hs
    have hne : pyStrip raw ≠ [] := by
      intro h0; rw [h0] at hs; exact absurd hs (by decide)
    simp [formatLine, hne, hs]
  · intro hs ht
    have hne : pyStrip raw ≠ [] := by
      intro h0; rw [h0] at ht; exact absurd ht (by decide)
    simp [formatLine, hne, hs, ht]
  · intro n p d hs ht hm
    have hne : pyStrip raw ≠ [] := by
      intro h0
      have hnone : dialogueREMatch ([] : List Char) = none := by decide
      rw [h0, hnone] at hm
      exact absurd hm (by simp)
    simp [formatLine, hne, hs, ht, hm]
  · intro hs ht hm hc
    have hne : pyStrip raw ≠ [] := by
      intro h0
      have : is_character_name raw = false := by
        rw [← is_character_name_strip, h0]; decide
      rw [this] at hc; exact absurd hc (by simp)
    have hc' : is_character_name (pyStrip raw) = true := by
      rw [is_character_name_strip]; exact hc
    simp [formatLine, hne, hs, ht, hm, hc']
  · intro hs ht hm hc he
    have hne : pyStrip raw ≠ [] := by
      intro h0
      have : is_emotion raw = false := by
        rw [← is_emotion_strip, h0]; decide
      rw [this] at he; exact absurd he (by simp)
    have hc' : is_character_name (pyStrip raw) = false := by
      rw [is_character_name_strip]; exact hc
    have he' : is_emotion (pyStrip raw) = true := by
      rw [is_emotion_strip]; exact he
    simp [formatLine, hne, hs, ht, hm, hc', he']
  · intro hs ht hm hc he hd
    have hne : pyStrip raw ≠ [] := by
      intro h0
      have : is_dialogue raw = false := by
        rw [← is_dialogue_strip, h0]; decide
      rw [this] at hd; exact absurd hd (by simp)
    have hc' : is_character_name (pyStrip raw) = false := by
      rw [is_character_name_strip]; exact hc
    have he' : is_emotion (pyStrip raw) = false := by
      rw [is_emotion_strip]; exact he
    have hd' : is_dialogue (pyStrip raw) = true := by
      rw [is_dialogue_strip]; exact hd
    simp [formatLine, hne, hs, ht, hm, hc', he', hd']
  · intro hne hs ht hm hc he hd
    have hc' : is_character_name (pyStrip raw) = false := by
      rw [is_character_name_strip]; exact hc
    have he' : is_emotion (pyStrip raw) = false := by
      rw [is_emotion_strip]; exact he
    have hd' : is_dialogue (pyStrip raw) = false := by
      rw [is_dialogue_strip]; exact hd
    simp [formatLine, hne, hs, ht, hm, hc', he', hd']

/-- C3 (witness): a plain inline line `BOB: hi there` is rendered by the
inline rule once the earlier rules fail. -/
theorem claim_C3_witness :
    formatLine exBobInline =
      [pyCenter 40 (pyStrip (pyUpper exBobName))] ++ [] ++
        [List.replicate 5 ' ' ++ pyStrip exBobDialogue] :=
  (claim_C3_amended exBobInline).2.2.2.1 exBobName none exBobDialogue
    (by decide) (by decide) (by decide)

/-- C8: rerunning the analyses on the same unmodified text yields identical
results.  The embedding is a pure function of the script exactly because
the source modules keep no module-level mutable state: every analysis
rebuilds its dictionaries and cursors locally per call. -/
theorem claim_C8_idempotent_reruns (script : List Char) :
    svRunScript script = svRunScript script ∧
    format_script script = format_script script ∧
    ctRunScript script = ctRunScript script ∧
    segmentScenes (splitOnNl (pyStrip script)) =
      segmentScenes (splitOnNl (pyStrip script)) :=
  ⟨rfl, rfl, rfl, rfl⟩

theorem get?_isSome_of_lt {α} (l : List α) (i : Nat) (hi : i < l.length) :
    ∃ a, l[i]? = some a := by
  cases h : l[i]? with
  | none => rw [List.getElem?_eq_none_iff] at h; omega
  | some a => exact ⟨a, rfl⟩

theorem svStep_isSome (lines : List (List Char)) (i : Nat)
    (hi : i < lines.length) (st : SVState) : (svStep lines i st).isSome := by
  obtain ⟨raw, h⟩ := get?_isSome_of_lt lines i hi
  by_cases hb : pyStrip raw = []
  · simp [svStep, h, hb]
  · by_cases hh : is_scene_heading (pyStrip raw) = true
    · simp [svStep, h, hb, hh]
    · by_cases htr : is_transition (pyStrip raw) = true
      · by_cases hlen : i + 1 ≥ lines.length
        · simp [svStep, h, hb, hh, htr, hlen]
        · obtain ⟨nxt, hn⟩ := get?_isSome_of_lt lines (i + 1) (by omega)
          by_cases hsn : is_scene_heading nxt = true
          · simp [svStep, h, hb, hh, htr, hlen, hn, hsn]
          · simp [svStep, h, hb, hh, htr, hlen, hn, hsn]
      · by_cases ha : is_action (pyStrip raw) = true
        · simp [svStep, h, hb, hh, htr, ha]
        · by_cases hd : is_dialogue (pyStrip raw) = true
          · by_cases hi1 : 1 ≤ i
            · obtain ⟨prev, hp⟩ := get?_isSome_of_lt lines (i - 1) (by omega)
              by_cases hcp : is_character_name prev = true
              · simp [svStep, h, hb, hh, htr, ha, hd, hi1, hp, hcp]
              · by_cases hi2 : 2 ≤ i
                · obtain ⟨p2, hp2⟩ := get?_isSome_of_lt lines (i - 2) (by omega)
                  by_cases hem : (is_emotion prev && is_character_name p2) = true
                  · simp [svStep, h, hb, hh, htr, ha, hd, hi1, hp, hcp, hi2,
                      hp2, hem]
                  · simp [svStep, h, hb, hh, htr, ha, hd, hi1, hp, hcp, hi2,
                      hp2, hem]
                · simp [svStep, h, hb, hh, htr, ha, hd, hi1, hp, hcp, hi2]
            · simp [svStep, h, hb, hh, htr, ha, hd, hi1]
          · simp [svStep, h, hb, hh, htr, ha, hd]

theorem foldlM_sv_isSome (lines : List (List Char)) (idxs : List Nat)
    (hall : ∀ j ∈ idxs, j < lines.length) :
    ∀ st, ((idxs.foldlM (fun st i => svStep lines i st) st :
      Option SVState)).isSome := by
  induction idxs with
  | nil => intro st; simp
  | cons j rest ih =>
    intro st
    have hj : j < lines.length := hall j (by simp)
    obtain ⟨st2, hst2⟩ := Option.isSome_iff_exists.mp (svStep_isSome lines j hj st)
    rw [List.foldlM_cons, hst2]
    have hrest : ∀ x ∈ rest, x < lines.length := fun x hx => hall x (by simp [hx])
    have := ih hrest st2
    simpa using this

/-- C7: the classification predicates and the full-script scans are total:
`scene_structure_validator`, with every Python subscript modelled as a
fallible lookup, returns a result (`isSome`) on every script, empty or
malformed; and a line reaching the dialogue branch whose speaker resolves
neither directly nor through one emotion line is counted under `UNKNOWN`
with an issue recorded, rather than failing; `character_tracking` likewise
counts a speakerless dialogue line under `UNKNOWN`. -/
theorem claim_C7_total_and_unknown :
    (∀ script, (svRunScript script).isSome) ∧
    (∀ lines (st : SVState) i raw, lines[i]? = some raw →
      is_scene_heading raw = false → is_transition raw = false →
      is_action raw = false → is_dialogue raw = true →
      (∀ prev, 1 ≤ i → lines[i - 1]? = some prev →
        is_character_name prev = false) →
      (∀ prev p2, 2 ≤ i → lines[i - 1]? = some prev →
        lines[i - 2]? = some p2 →
        (is_emotion prev && is_character_name p2) = false) →
      svStep lines i st =
        some
          { st with
            charLines := bump st.charLines UNKNOWN 1,
            sceneIssues := st.sceneIssues ++ [i + 1] }) ∧
    (∀ (st : CTState) raw, is_dialogue raw = true → st.current = none →
      (ctStep st raw).counts = bump st.counts UNKNOWN 1) := by
  refine ⟨?_, ?_, ?_⟩
  · intro script
    unfold svRunScript svRun
    apply foldlM_sv_isSome
    intro j hj
    simpa using List.mem_range.mp hj
  · intro lines st i raw hget hh ht ha hd hprev hem
    have hilen : i < lines.length := by
      by_contra hnot
      rw [List.getElem?_eq_none (by omega)] at hget
      exact absurd hget (by simp)
    have hne : pyStrip raw ≠ [] := by
      intro h0
      have hdf : is_dialogue raw = false := by
        rw [← is_dialogue_strip, h0]; decide
      rw [hdf] at hd
      exact absurd hd (by simp)
    have hh' : is_scene_heading (pyStrip raw) = false := by
      rw [is_scene_heading_strip]; exact hh
    have ht' : is_transition (pyStrip raw) = false := by
      rw [is_transition_strip]; exact ht
    have ha' : is_action (pyStrip raw) = false := by
      rw [is_action_strip]; exact ha
    have hd' : is_dialogue (pyStrip raw) = true := by
      rw [is_dialogue_strip]; exact hd
    by_cases h1 : 1 ≤ i
    · obtain ⟨prev, hp⟩ := get?_isSome_of_lt lines (i - 1) (by omega)
      have hcp : is_character_name prev = false := hprev prev h1 hp
      by_cases h2 : 2 ≤ i
      · obtain ⟨p2, hp2⟩ := get?_isSome_of_lt lines (i - 2) (by omega)
        have hmm := hem prev p2 h2 hp hp2
        simp [svStep, hget, hne, hh', ht', ha', hd', h1, hp, hcp, h2, hp2, hmm]
      · simp [svStep, hget, hne, hh', ht', ha', hd', h1, hp, hcp, h2]
    · simp [svStep, hget, hne, hh', ht', ha', hd', h1]
  · intro st raw h hcur
    have hc := dialogue_not_cue h
    have hd2 : is_dialogue (pyStrip raw) = true := by
      rw [is_dialogue_strip]; exact h
    simp [ctStep, hc, hd2, hcur]

/-- C7 (witness): the lone dialogue line `hello there?` has no resolvable
speaker and is counted under `UNKNOWN` with its line number recorded as an
issue. -/
theorem claim_C7_witness :
    svStep [exQuestion] 0 initSV =
      some
        { initSV with
          charLines := bump initSV.charLines UNKNOWN 1,
          sceneIssues := initSV.sceneIssues ++ [1] } :=
  claim_C7_total_and_unknown.2.1 [exQuestion] initSV 0 exQuestion (by decide)
    (by decide) (by decide) (by decide) (by decide)
    (fun _ h1 _ => absurd h1 (by omega))
    (fun _ _ h2 _ _ => absurd h2 (by omega))

/-- C10: the transition lookahead in `scene_structure_validator` is safely
guarded and shallow.  A transition as the final line is flagged (the guard
takes the out-of-range branch instead of indexing past the end), and the
check reads only the raw line at `i + 1`: a transition followed by a blank
line is flagged even if a scene heading follows the blank. -/
theorem claim_C10_transition_guard :
    (∀ lines (st : SVState) i raw, lines[i]? = some raw →
      i + 1 = lines.length →
      is_scene_heading raw = false → is_transition raw = true →
      svStep lines i st =
        some { st with headerIssues := st.headerIssues ++ [i + 1] }) ∧
    (∀ lines (st : SVState) i raw nxt, lines[i]? = some raw →
      lines[i + 1]? = some nxt → pyStrip nxt = [] →
      is_scene_heading raw = false → is_transition raw = true →
      svStep lines i st =
        some { st with headerIssues := st.headerIssues ++ [i + 1] }) := by
  constructor
  · intro lines st i raw hget hlast hh ht
    have hne : pyStrip raw ≠ [] := by
      intro h0
      have htf : is_transition raw = false := by
        rw [← is_transition_strip, h0]; decide
      rw [htf] at ht
      exact absurd ht (by simp)
    have hh' : is_scene_heading (pyStrip raw) = false := by
      rw [is_scene_heading_strip]; exact hh
    have ht' : is_transition (pyStrip raw) = true := by
      rw [is_transition_strip]; exact ht
    have hguard : i + 1 ≥ lines.length := by omega
    simp [svStep, hget, hne, hh', ht', hguard]
  · intro lines st i raw nxt hget hnxt hblank hh ht
    have hne : pyStrip raw ≠ [] := by
      intro h0
      have htf : is_transition raw = false := by
        rw [← is_transition_strip, h0]; decide
      rw [htf] at ht
      exact absurd ht (by simp)
    have hh' : is_scene_heading (pyStrip raw) = false := by
      rw [is_scene_heading_strip]; exact hh
    have ht' : is_transition (pyStrip raw) = true := by
      rw [is_transition_strip]; exact ht
    have hlt : i + 1 < lines.length := by
      by_contra hge
      rw [List.getElem?_eq_none (by omega)] at hnxt
      exact absurd hnxt (by simp)
    have hguard : ¬(i + 1 ≥ lines.length) := by omega
    have hsn : is_scene_heading nxt = false := by
      rw [← is_scene_heading_strip, hblank]; decide
    simp [svStep, hget, hne, hh', ht', hguard, hnxt, hsn]

/-- C10 (witness): a final `CUT TO:` is flagged, and `CUT TO:` followed by a
blank line and then `INT. ROOM - DAY` is still flagged. -/
theorem claim_C10_witness :
    svStep [exCutTo] 0 initSV =
      some { initSV with headerIssues := initSV.headerIssues ++ [1] } ∧
    svStep [exCutTo, [], exIntRoom] 0 initSV =
      some { initSV with headerIssues := initSV.headerIssues ++ [1] } :=
  ⟨claim_C10_transition_guard.1 [exCutTo] initSV 0 exCutTo (by decide)
      (by decide) (by decide) (by decide),
    claim_C10_transition_guard.2 [exCutTo, [], exIntRoom] initSV 0 exCutTo []
      (by decide) (by decide) (by decide) (by decide) (by decide)⟩

theorem heading_strip_ne_nil {l : List Char} (h : is_scene_heading l = true) :
    pyStrip l ≠ [] := by
  intro h0
  rw [← is_scene_heading_strip, h0] at h
  exact absurd h (by decide)

theorem segRec_nil (c : Nat) : segRec [] c = [] := by
  rw [segRec]

theorem segRec_cons_heading {l : List Char} {rest : List (List Char)} {c : Nat}
    (hl : is_scene_heading l = true) :
    segRec (l :: rest) c =
      { heading := pyStrip l,
        content := rest.takeWhile (fun x => !is_scene_heading x),
        index := c + 1 }
        :: segRec (rest.dropWhile (fun x => !is_scene_heading x)) (c + 1) := by
  rw [segRec]
  simp [hl]

theorem segRec_cons_not {l : List Char} {rest : List (List Char)} {c : Nat}
    (hl : is_scene_heading l = false) :
    segRec (l :: rest) c = segRec rest c := by
  rw [segRec]
  simp [hl]

theorem segLoop_some : ∀ (lines : List (List Char)) (scenes : List Scene)
    (h : List Char) (i : Nat) (content : List (List Char)) (c : Nat),
    h ≠ [] →
    segLoop lines scenes (some (h, i)) content c =
      scenes ++
        { heading := h,
          content := content ++ lines.takeWhile (fun x => !is_scene_heading x),
          index := i }
          :: segRec (lines.dropWhile (fun x => !is_scene_heading x)) c := by
  intro lines
  induction lines with
  | nil =>
    intro scenes h i content c hne
    simp [segLoop, flushScene, hne, segRec_nil]
  | cons l rest ih =>
    intro scenes h i content c hne
    cases hl : is_scene_heading l with
    | true =>
      have hstr : pyStrip l ≠ [] := heading_strip_ne_nil hl
      have hstep : segLoop (l :: rest) scenes (some (h, i)) content c =
          segLoop rest (scenes ++ flushScene (some (h, i)) content)
            (some (pyStrip l, c + 1)) [] (c + 1) := by
        simp [segLoop, hl]
      rw [hstep, ih _ _ _ _ _ hstr]
      rw [List.takeWhile_cons, List.dropWhile_cons]
      simp [hl, flushScene, hne, segRec_cons_heading hl]
    | false =>
      have hstep : segLoop (l :: rest) scenes (some (h, i)) content c =
          segLoop rest scenes (some (h, i)) (content ++ [l]) c := by
        simp [segLoop, hl]
      rw [hstep, ih _ _ _ _ _ hne]
      rw [List.takeWhile_cons, List.dropWhile_cons]
      simp [hl]

theorem segLoop_none : ∀ (lines : List (List Char)) (scenes : List Scene)
    (content : List (List Char)) (c : Nat),
    segLoop lines scenes none content c = scenes ++ segRec lines c := by
  intro lines
  induction lines with
  | nil =>
    intro scenes content c
    simp [segLoop, flushScene, segRec_nil]
  | cons l rest ih =>
    intro scenes content c
    cases hl : is_scene_heading l with
    | true =>
      have hstr : pyStrip l ≠ [] := heading_strip_ne_nil hl
      have hstep : segLoop (l :: rest) scenes none content c =
          segLoop rest (scenes ++ flushScene none content)
            (some (pyStrip l, c + 1)) [] (c + 1) := by
        simp [segLoop, hl]
      rw [hstep]
      simp only [flushScene, List.append_nil]
      rw [segLoop_some rest scenes (pyStrip l) (c + 1) [] (c + 1) hstr]
      rw [segRec_cons_heading hl]
      simp
    | false =>
      have hstep : segLoop (l :: rest) scenes none content c =
          segLoop rest scenes none (content ++ [l]) c := by
        simp [segLoop, hl]
      rw [hstep, ih scenes (content ++ [l]) c, segRec_cons_not hl]

theorem segmentScenes_eq_segRec (lines : List (List Char)) :
    segmentScenes lines = segRec lines 0 := by
  unfold segmentScenes
  rw [segLoop_none lines [] [] 0]
  simp

theorem countP_takeWhile_not_heading (rest : List (List Char)) :
    (rest.takeWhile (fun x => !is_scene_heading x)).countP is_scene_heading = 0 := by
  rw [List.countP_eq_zero]
  intro a ha
  have h1 := List.mem_takeWhile_imp ha
  simp only [Bool.not_eq_true'] at h1
  simp [h1]

theorem countP_dropWhile_not_heading (rest : List (List Char)) :
    rest.countP is_scene_heading =
      (rest.dropWhile (fun x => !is_scene_heading x)).countP is_scene_heading := by
  have hsplit : rest.takeWhile (fun x => !is_scene_heading x) ++
      rest.dropWhile (fun x => !is_scene_heading x) = rest := by
    simp
  conv_lhs => rw [← hsplit]
  rw [List.countP_append, countP_takeWhile_not_heading]
  omega

theorem dropWhile_len_le (rest : List (List Char)) :
    (rest.dropWhile (fun x => !is_scene_heading x)).length ≤ rest.length :=
  (List.dropWhile_sublist (fun x => !is_scene_heading x)).length_le

theorem segRec_length : ∀ (n : Nat) (lines : List (List Char)),
    lines.length ≤ n → ∀ c,
    (segRec lines c).length = lines.countP is_scene_heading := by
  intro n
  induction n with
  | zero =>
    intro lines hlen c
    have h0 : lines = [] := List.length_eq_zero.mp (by omega)
    subst h0
    simp [segRec_nil]
  | succ n ih =>
    intro lines hlen c
    match lines with
    | [] => simp [segRec_nil]
    | l :: rest =>
      simp only [List.length_cons] at hlen
      cases hl : is_scene_heading l with
      | true =>
        rw [segRec_cons_heading hl]
        have hlen2 : (rest.dropWhile (fun x => !is_scene_heading x)).length ≤ n := by
          have := dropWhile_len_le rest
          omega
        simp only [List.length_cons, ih _ hlen2 (c + 1)]
        rw [List.countP_cons, ← countP_dropWhile_not_heading]
        simp [hl]
      | false =>
        rw [segRec_cons_not hl]
        rw [ih rest (by omega) c, List.countP_cons]
        simp [hl]

theorem segRec_indices : ∀ (n : Nat) (lines : List (List Char)),
    lines.length ≤ n → ∀ c,
    (segRec lines c).map Scene.index =
      List.range' (c + 1) (lines.countP is_scene_heading) := by
  intro n
  induction n with
  | zero =>
    intro lines hlen c
    have h0 : lines = [] := List.length_eq_zero.mp (by omega)
    subst h0
    simp [segRec_nil]
  | succ n ih =>
    intro lines hlen c
    match lines with
    | [] => simp [segRec_nil]
    | l :: rest =>
      simp only [List.length_cons] at hlen
      cases hl : is_scene_heading l with
      | true =>
        rw [segRec_cons_heading hl]
        have hlen2 : (rest.dropWhile (fun x => !is_scene_heading x)).length ≤ n := by
          have := dropWhile_len_le rest
          omega
        have hcnt : (l :: rest).countP is_scene_heading =
            (rest.dropWhile (fun x => !is_scene_heading x)).countP is_scene_heading + 1 := by
          rw [List.countP_cons, ← countP_dropWhile_not_heading]
          simp [hl]
        rw [hcnt, List.range'_succ]
        simp only [List.map_cons]
        rw [ih _ hlen2 (c + 1)]
      | false =>
        rw [segRec_cons_not hl]
        rw [ih rest (by omega) c, List.countP_cons]
        simp [hl]

theorem segRec_decomp : ∀ (n : Nat) (lines : List (List Char)),
    lines.length ≤ n → ∀ c,
    ∃ (pre : List (List Char)) (hs : List (List Char)),
      (∀ l ∈ pre, is_scene_heading l = false) ∧
      hs.length = (segRec lines c).length ∧
      lines = pre ++
        (hs.zip (segRec lines c)).flatMap (fun p => p.1 :: p.2.content) ∧
      (∀ p ∈ hs.zip (segRec lines c), is_scene_heading p.1 = true ∧
        pyStrip p.1 = p.2.heading ∧
        ∀ x ∈ p.2.content, is_scene_heading x = false) := by
  intro n
  induction n with
  | zero =>
    intro lines hlen c
    have h0 : lines = [] := List.length_eq_zero.mp (by omega)
    subst h0
    exact ⟨[], [], by simp, by simp [segRec_nil], by simp [segRec_nil],
      by simp [segRec_nil]⟩
  | succ n ih =>
    intro lines hlen c
    match lines with
    | [] =>
      exact ⟨[], [], by simp, by simp [segRec_nil], by simp [segRec_nil],
        by simp [segRec_nil]⟩
    | l :: rest =>
      simp only [List.length_cons] at hlen
      cases hl : is_scene_heading l with
      | true =>
        have hlen2 : (rest.dropWhile (fun x => !is_scene_heading x)).length ≤ n := by
          have := dropWhile_len_le rest
          omega
        obtain ⟨pre, hs, hpre, hlens, heq, hprops⟩ := ih _ hlen2 (c + 1)
        have hpre0 : pre = [] := by
          cases hdrop : rest.dropWhile (fun x => !is_scene_heading x) with
          | nil =>
            rw [hdrop] at heq
            exact (List.append_eq_nil.mp heq.symm).1
          | cons d ds =>
            have hd : is_scene_heading d = true := by
              have h2 := dropWhile_cons_head (fun x => !is_scene_heading x) rest d ds hdrop
              simpa using h2
            cases hpre1 : pre with
            | nil => rfl
            | cons p0 pre2 =>
              exfalso
              rw [hdrop, hpre1] at heq
              have hp0 : p0 = d := by
                have := heq
                simp only [List.cons_append] at this
                exact (List.cons.injEq .. |>.mp this).1.symm
              have hp0f : is_scene_heading p0 = false := hpre p0 (by simp [hpre1])
              rw [hp0, hd] at hp0f
              exact absurd hp0f (by simp)
        subst hpre0
        simp only [List.nil_append] at heq
        refine ⟨[], l :: hs, by simp, ?_, ?_, ?_⟩
        · rw [segRec_cons_heading hl]
          simpa using hlens
        · rw [segRec_cons_heading hl]
          have hsplit : rest.takeWhile (fun x => !is_scene_heading x) ++
              rest.dropWhile (fun x => !is_scene_heading x) = rest := by
            simp
          have key : rest = rest.takeWhile (fun x => !is_scene_heading x) ++
              (hs.zip (segRec (rest.dropWhile (fun x => !is_scene_heading x))
                (c + 1))).flatMap (fun p => p.1 :: p.2.content) := by
            conv_lhs => rw [← hsplit, heq]
          simp only [List.zip_cons_cons, List.flatMap_cons, List.nil_append,
            List.cons_append]
          conv_lhs => rw [key]
        · rw [segRec_cons_heading hl]
          intro p hp
          simp only [List.zip_cons_cons, List.mem_cons] at hp
          rcases hp with hp | hp
          · subst hp
            refine ⟨hl, rfl, ?_⟩
            intro x hx
            have h1 := List.mem_takeWhile_imp hx
            simpa using h1
          · exact hprops p hp
      | false =>
        obtain ⟨pre, hs, hpre, hlens, heq, hprops⟩ := ih rest (by omega) c
        refine ⟨l :: pre, hs, ?_, ?_, ?_, ?_⟩
        · intro x hx
          rcases List.mem_cons.mp hx with hx | hx
          · subst hx; exact hl
          · exact hpre x hx
        · rw [segRec_cons_not hl]; exact hlens
        · rw [segRec_cons_not hl]
          simp only [List.cons_append]
          rw [← heq]
        · rw [segRec_cons_not hl]
          exact hprops

/-- C4: scene segmentation (identical in `scene_pacing_and_distribution` and
`readability_analysis`) over a line sequence with `k` scene-heading lines
produces exactly `k` scenes with indices `1..k` in encounter order; the
lines decompose as a heading-free prefix followed by the scenes' heading
lines and content blocks in source order (so the content lists are
non-overlapping, order-preserving, and the lines before the first heading
belong to no scene); zero headings give zero scenes. -/
theorem claim_C4_scene_segmentation (lines : List (List Char)) :
    (segmentScenes lines).length = lines.countP is_scene_heading ∧
    (segmentScenes lines).map Scene.index =
      List.range' 1 (lines.countP is_scene_heading) ∧
    ∃ (pre : List (List Char)) (hs : List (List Char)),
      (∀ l ∈ pre, is_scene_heading l = false) ∧
      hs.length = (segmentScenes lines).length ∧
      lines = pre ++
        (hs.zip (segmentScenes lines)).flatMap (fun p => p.1 :: p.2.content) ∧
      (∀ p ∈ hs.zip (segmentScenes lines), is_scene_heading p.1 = true ∧
        pyStrip p.1 = p.2.heading ∧
        ∀ x ∈ p.2.content, is_scene_heading x = false) := by
  rw [segmentScenes_eq_segRec]
  refine ⟨segRec_length lines.length lines le_rfl 0, ?_,
    segRec_decomp lines.length lines le_rfl 0⟩
  simpa using segRec_indices lines.length lines le_rfl 0

theorem dialogue_not_heading {l : List Char} (h : is_dialogue l = true) :
    is_scene_heading l = false := by
  simp only [is_dialogue, Bool.and_eq_true, Bool.not_eq_true'] at h
  rw [← is_scene_heading_strip]
  exact h.1.1.1.1.2

theorem foldl_pac_current_none (content : List (List Char)) :
    ∀ st : PacScanState, st.current = none →
      (∀ l ∈ content, is_character_name l = false) →
      (content.foldl pacStep st).current = none := by
  induction content with
  | nil => intro st h _; simpa using h
  | cons l rest ih =>
    intro st h hall
    have hl : is_character_name l = false := hall l (by simp)
    have hstep : (pacStep st l).current = none := by
      rw [pacStep_current_not_cue st l hl, h]
    simp only [List.foldl_cons]
    exact ih (pacStep st l) hstep (fun x hx => hall x (by simp [hx]))

theorem cdStep_current_not_cue (st : CDState) (i : Nat) (raw : List Char)
    (h : is_character_name raw = false) :
    (cdStep i st raw).current = st.current ∨ (cdStep i st raw).current = none := by
  have h' : is_character_name (pyStrip raw) = false := by
    rw [is_character_name_strip]; exact h
  by_cases hh : is_scene_heading (pyStrip raw) = true
  · left; simp [cdStep, hh]
  · by_cases hd : (is_dialogue (pyStrip raw) && pyTruthy st.current) = true
    · left; simp [cdStep, hh, h', hd]
    · by_cases ha : is_action (pyStrip raw) = true
      · left; simp [cdStep, hh, h', hd, ha]
      · by_cases hb : pyStrip raw = []
        · right
          have e1 : is_character_name ([] : List Char) = false := by decide
          have e2 : is_dialogue ([] : List Char) = false := by decide
          have e3 : is_action ([] : List Char) = false := by decide
          have e0 : is_scene_heading ([] : List Char) = false := by decide
          simp [cdStep, hb, e0, e1, e2, e3]
        · left; simp [cdStep, hh, h', hd, ha, hb]

theorem foldl_cd_current_none (ps : List (Nat × List Char)) :
    ∀ st : CDState, st.current = none →
      (∀ p ∈ ps, is_character_name p.2 = false) →
      (ps.foldl (fun st p => cdStep p.1 st p.2) st).current = none := by
  induction ps with
  | nil => intro st h _; simpa using h
  | cons q rest ih =>
    intro st h hall
    have hq : is_character_name q.2 = false := hall q (by simp)
    have hstep : (cdStep q.1 st q.2).current = none := by
      rcases cdStep_current_not_cue st q.1 q.2 hq with h1 | h1
      · rw [h1, h]
      · exact h1
    simp only [List.foldl_cons]
    exact ih (cdStep q.1 st q.2) hstep (fun x hx => hall x (by simp [hx]))


/-- C2 (amended): the universally claimed speaker-state behaviour holds
only partly, and differently per scan.  In `character_tracking`: the speaker
is `none` while no character-name line has been scanned, a character-name
line sets it to the stripped line, a blank line resets it to `none`
regardless of scene boundaries, every other line (scene headings included)
leaves it unchanged, and a dialogue line with no speaker is counted under
`UNKNOWN`.  In `character_speaking_stats`: the speaker is likewise `none`
before the first cue, a cue sets it, a speakerless dialogue line is counted
under `UNKNOWN`, but a blank line leaves the whole state unchanged (there
is no blank-line reset).  In `scene_pacing_and_distribution`: a blank line
leaves the scan state unchanged, a speakerless dialogue line is counted
under `UNKNOWN`, and the per-scene scan restarts with no speaker, so a
dialogue line preceded by no cue of its own scene is counted under
`UNKNOWN`; in the full pipeline over segmented scenes a speaker set in one
scene does not reach the next: with a cue inside scene one and a bare
dialogue line opening scene two, that dialogue is attributed to `UNKNOWN`
and not to the scene-one speaker.  In `character_development_validator`:
the speaker is `none` before the first cue, a cue sets it, a blank line
resets it, every other line (scene headings included) leaves it unchanged,
but a dialogue line with no truthy speaker is silently dropped: the
spoken-line counts are left untouched and no `UNKNOWN` entry is made. -/
theorem claim_C2_amended :
    (∀ lines, (∀ l ∈ lines, is_character_name l = false) →
      (ctRun lines).current = none) ∧
    (∀ (st : CTState) raw, is_character_name raw = true →
      (ctStep st raw).current = some (pyStrip raw)) ∧
    (∀ (st : CTState) raw, pyStrip raw = [] →
      (ctStep st raw).current = none) ∧
    (∀ (st : CTState) raw, is_character_name raw = false → pyStrip raw ≠ [] →
      (ctStep st raw).current = st.current) ∧
    (∀ (st : CTState) raw, is_dialogue raw = true → st.current = none →
      (ctStep st raw).counts = bump st.counts UNKNOWN 1) ∧
    (∀ lines, (∀ l ∈ lines, is_character_name l = false) →
      (ssRun lines).current = none) ∧
    (∀ (st : SSState) raw, is_character_name raw = true →
      (ssStep st raw).current = some (pyUpper (pyStrip raw))) ∧
    (∀ (st : SSState) raw, pyStrip raw = [] → ssStep st raw = st) ∧
    (∀ (st : SSState) raw, is_dialogue raw = true → st.current = none →
      (ssStep st raw).lineCount = bump st.lineCount UNKNOWN 1) ∧
    (∀ (st : PacScanState) raw, pyStrip raw = [] → pacStep st raw = st) ∧
    (∀ (st : PacScanState) raw, is_dialogue raw = true → st.current = none →
      (pacStep st raw).charLines = bump st.charLines UNKNOWN 1) ∧
    (∀ cl td pre dlg, (∀ l ∈ pre, is_character_name l = false) →
      is_dialogue dlg = true →
      (pacSceneScan cl td (pre ++ [dlg])).charLines =
        bump (pacSceneScan cl td pre).charLines UNKNOWN 1) ∧
    (∀ h1 cueL h2 dlg, is_scene_heading h1 = true →
      is_scene_heading h2 = true → is_character_name cueL = true →
      is_dialogue dlg = true → pyUpper (pyStrip cueL) ≠ UNKNOWN →
      (scene_pacing_and_distribution [h1, cueL, h2, dlg]).charLines UNKNOWN = 1 ∧
      (scene_pacing_and_distribution [h1, cueL, h2, dlg]).charLines
        (pyUpper (pyStrip cueL)) = 0) ∧
    (∀ lines, (∀ l ∈ lines, is_character_name l = false) →
      (cdRun lines).current = none) ∧
    (∀ (st : CDState) i raw, is_character_name raw = true →
      (cdStep i st raw).current = some (pyStrip raw)) ∧
    (∀ (st : CDState) i raw, pyStrip raw = [] →
      (cdStep i st raw).current = none) ∧
    (∀ (st : CDState) i raw, is_character_name raw = false →
      pyStrip raw ≠ [] → (cdStep i st raw).current = st.current) ∧
    (∀ (st : CDState) i raw, pyTruthy st.current = false →
      (cdStep i st raw).speakers = st.speakers) := by
  refine ⟨?_, ?_, ?_, ?_, ?_, ?_, ?_, ?_, ?_, ?_, ?_, ?_, ?_, ?_, ?_, ?_, ?_, ?_⟩
  · exact fun lines hall => foldl_ct_current_none lines _ rfl hall
  · intro st raw h
    have h' : is_character_name (pyStrip raw) = true := by
      rw [is_character_name_strip]; exact h
    simp [ctStep, h']
  · intro st raw hb
    have e1 : is_character_name ([] : List Char) = false := by decide
    have e2 : is_dialogue ([] : List Char) = false := by decide
    simp [ctStep, hb, e1, e2]
  · intro st raw h hb
    have h' : is_character_name (pyStrip raw) = false := by
      rw [is_character_name_strip]; exact h
    cases hd : is_dialogue (pyStrip raw) with
    | true =>
      cases hc : st.current with
      | none => simp [ctStep, h', hd, hc]
      | some c =>
        by_cases hcc : c = []
        · simp [ctStep, h', hd, hc, hcc]
        · simp [ctStep, h', hd, hc, hcc]
    | false => simp [ctStep, h', hd, hb]
  · intro st raw h hcur
    have hc := dialogue_not_cue h
    have hd : is_dialogue (pyStrip raw) = true := by
      rw [is_dialogue_strip]; exact h
    simp [ctStep, hc, hd, hcur]
  · exact fun lines hall => foldl_ss_current_none lines _ rfl hall
  · intro st raw h
    simp [ssStep, h]
  · intro st raw hb
    have h1 : is_character_name raw = false := by
      rw [← is_character_name_strip, hb]; decide
    have h2 : is_dialogue raw = false := by
      rw [← is_dialogue_strip, hb]; decide
    simp [ssStep, h1, h2]
  · intro st raw h hcur
    have h1 : is_character_name raw = false := by
      rw [← is_character_name_strip]; exact dialogue_not_cue h
    simp [ssStep, h1, h, hcur]
  · intro st raw hb
    have h1 : is_character_name raw = false := by
      rw [← is_character_name_strip, hb]; decide
    have h2 : is_dialogue raw = false := by
      rw [← is_dialogue_strip, hb]; decide
    have h3 : is_action raw = false := by
      rw [← is_action_strip, hb]; decide
    simp [pacStep, h1, h2, h3]
  · intro st raw h hcur
    have h1 : is_character_name raw = false := by
      rw [← is_character_name_strip]; exact dialogue_not_cue h
    simp [pacStep, h1, h, hcur]
  · intro cl td pre dlg hpre hdlg
    have hc : is_character_name dlg = false := by
      rw [← is_character_name_strip]; exact dialogue_not_cue hdlg
    unfold pacSceneScan
    rw [List.foldl_append]
    have hcur : ((pre.foldl pacStep
        { current := none, dialogueCount := 0, actionCount := 0,
          charLines := cl, totalDialogue := td }) : PacScanState).current =
        none := foldl_pac_current_none pre _ rfl hpre
    simp only [List.foldl_cons, List.foldl_nil]
    simp [pacStep, hc, hdlg, hcur]
  · intro h1 cueL h2 dlg hh1 hh2 hcue hdlg hne
    have hcueh : is_scene_heading cueL = false := (character_name_excl hcue).1
    have hdlgh : is_scene_heading dlg = false := dialogue_not_heading hdlg
    have hdlgc : is_character_name dlg = false := by
      rw [← is_character_name_strip]; exact dialogue_not_cue hdlg
    have hseg : segmentScenes [h1, cueL, h2, dlg] =
        [{ heading := pyStrip h1, content := [cueL], index := 1 },
          { heading := pyStrip h2, content := [dlg], index := 2 }] := by
      rw [segmentScenes_eq_segRec, segRec_cons_heading hh1]
      have e1 : List.takeWhile (fun x => !is_scene_heading x) [cueL, h2, dlg] =
          [cueL] := by
        simp [List.takeWhile_cons, hcueh, hh2]
      have e2 : List.dropWhile (fun x => !is_scene_heading x) [cueL, h2, dlg] =
          [h2, dlg] := by
        simp [List.dropWhile_cons, hcueh, hh2]
      rw [e1, e2, segRec_cons_heading hh2]
      have e3 : List.takeWhile (fun x => !is_scene_heading x) [dlg] = [dlg] := by
        simp [hdlgh]
      have e4 : List.dropWhile (fun x => !is_scene_heading x) [dlg] = [] := by
        simp [hdlgh]
      rw [e3, e4, segRec_nil]
    unfold scene_pacing_and_distribution
    rw [hseg]
    simp only [List.foldl_cons, List.foldl_nil]
    simp [pacOuterStep, pacSceneScan, pacStep, hcue, hdlgc, hdlg, bump, hne]
  · intro lines hall
    unfold cdRun
    refine foldl_cd_current_none lines.enum initCD rfl ?_
    intro p hp
    obtain ⟨i, x⟩ := p
    have hx : x ∈ lines :=
      List.getElem?_mem (List.mk_mem_enum_iff_getElem?.mp hp)
    exact hall x hx
  · intro st i raw h
    have h' : is_character_name (pyStrip raw) = true := by
      rw [is_character_name_strip]; exact h
    have hh : is_scene_heading (pyStrip raw) = false := by
      rw [is_scene_heading_strip]; exact (character_name_excl h).1
    simp [cdStep, h', hh, pyStrip_idem]
  · intro st i raw hb
    have e0 : is_scene_heading ([] : List Char) = false := by decide
    have e1 : is_character_name ([] : List Char) = false := by decide
    have e2 : is_dialogue ([] : List Char) = false := by decide
    have e3 : is_action ([] : List Char) = false := by decide
    simp [cdStep, hb, e0, e1, e2, e3]
  · intro st i raw h hb
    have h' : is_character_name (pyStrip raw) = false := by
      rw [is_character_name_strip]; exact h
    by_cases hh : is_scene_heading (pyStrip raw) = true
    · simp [cdStep, hh]
    · by_cases hd : (is_dialogue (pyStrip raw) && pyTruthy st.current) = true
      · simp [cdStep, hh, h', hd]
      · by_cases ha : is_action (pyStrip raw) = true
        · simp [cdStep, hh, h', hd, ha]
        · simp [cdStep, hh, h', hd, ha, hb]
  · intro st i raw h
    have hfalse : (is_dialogue (pyStrip raw) && pyTruthy st.current) = false := by
      rw [h]; simp
    by_cases hh : is_scene_heading (pyStrip raw) = true
    · simp [cdStep, hh]
    · by_cases hc : is_character_name (pyStrip raw) = true
      · simp [cdStep, hh, hc]
      · by_cases ha : is_action (pyStrip raw) = true
        · simp [cdStep, hh, hc, hfalse, ha]
        · by_cases hb : pyStrip raw = []
          · have e0 : is_scene_heading ([] : List Char) = false := by decide
            have e1 : is_character_name ([] : List Char) = false := by decide
            have e2 : is_dialogue ([] : List Char) = false := by decide
            have e3 : is_action ([] : List Char) = false := by decide
            simp [cdStep, hb, e0, e1, e2, e3]
          · simp [cdStep, hh, hc, hfalse, ha, hb]

/-- C2 (counterexample): the claim fails on two of the four scans it
covers.  In `character_speaking_stats` the blank-line reset is absent: on
the lines `BOB`, blank, dialogue, the blank line does not clear the
speaker, so the dialogue is attributed to `BOB`, not to `UNKNOWN` as the
claimed reset would force.  In `character_development_validator` the
`UNKNOWN` attribution is absent: on the single speakerless dialogue line
the spoken-line counts stay empty (no `UNKNOWN` entry), while
`character_tracking` on the same line does count `UNKNOWN` once. -/
theorem claim_C2_counterexample :
    (ssRun exSpeakerLines).current = some exBob ∧
    (ssRun exSpeakerLines).lineCount exBob = 1 ∧
    (ssRun exSpeakerLines).lineCount UNKNOWN = 0 ∧
    (cdRun [exHello]).speakers UNKNOWN = 0 ∧
    (ctRun [exHello]).counts UNKNOWN = 1 := by
  exact ⟨by decide, by decide, by decide, by decide, by decide⟩

/-- C2 (witness): the `character_tracking` speaker stays `none` on a
cue-free concrete script. -/
theorem claim_C2_witness : (ctRun [exHello]).current = none :=
  claim_C2_amended.1 [exHello] (by decide)


example : dialogueREMatch exParen = some (exParenName, some exParenContent, exParenDialogue) := by
  decide

example : dialogueREMatch exSmashCut = none := by decide

example : (segmentScenes [exIntRoom, exBob, exHello]).length = 1 := by decide

example : (segmentScenes [exBob, exHello]).length = 0 := by decide


example : possible_names exFindA = ["JOHN ".data, "ROOM".data] := by decide

example : possible_names exFindB = ["BOB AND ALICE ".data] := by decide

example : possible_names exFindC = ["MR".data, "SMITH WAITS".data] := by decide

example : possible_names exFindD = ["Z TEST ".data] := by decide

example : (cdRun [exBob, exHello]).speakers exBob = 1 := by decide

example : (cdRun [exBob, [], exHello]).speakers exBob = 0 := by decide
